import Mathlib

/-!
Verification of `color_gradient` from `src/app/src/color_legend_gradient.js`.

The function receives a 2D drawing context, creates a linear gradient with
endpoints (0,0)-(0,180), registers two color stops, assigns the gradient as
the context's fill style, fills the rectangle (5, 0, 15, 180), and returns
the context it was given.

We embed the consumed capability surface of the drawing context (gradient
creation, color-stop registration, fill-style assignment, rectangle fill) as
a mock that records every invocation in an event trace, so that the order
and multiplicity of calls made by `color_gradient` are observable.  The
context state carries a type-generic `other` component standing for every
part of a real context that the capability surface does not touch.  The
context reference itself is a type-generic value threaded through the call,
so that returning the argument reference is observable.
-/

namespace ColorLegendGradient

/-- A paint value assignable to a context's fill style: either a CSS color
string or a reference (heap index) to a gradient object. -/
inductive Paint where
  | css (c : String)
  | gradient (gid : Nat)
deriving DecidableEq, Repr

/-- A linear-gradient object: its two endpoints and its ordered list of
color stops, each an (offset, color) pair. -/
structure Gradient where
  x0 : Int
  y0 : Int
  x1 : Int
  y1 : Int
  stops : List (ℚ × String)
deriving DecidableEq, Repr

/-- One recorded invocation on the mock drawing context or on a gradient
object obtained from it. -/
inductive Event where
  | createLinearGradient (x0 y0 x1 y1 : Int) (gid : Nat)
  | addColorStop (gid : Nat) (offset : ℚ) (color : String)
  | setFillStyle (p : Paint)
  | fillRect (x y w h : Int)
deriving DecidableEq, Repr

/-- `true` exactly on `fillRect` events. -/
def Event.isFillRect : Event → Bool
  | .fillRect _ _ _ _ => true
  | _ => false

/-- `true` exactly on `addColorStop` events. -/
def Event.isAddColorStop : Event → Bool
  | .addColorStop _ _ _ => true
  | _ => false

/-- `true` exactly on `createLinearGradient` events. -/
def Event.isCreateLinearGradient : Event → Bool
  | .createLinearGradient _ _ _ _ _ => true
  | _ => false

/-- `true` exactly on `setFillStyle` events. -/
def Event.isSetFillStyle : Event → Bool
  | .setFillStyle _ => true
  | _ => false

/-- The observable state of a mock 2D drawing context: the heap of gradient
objects it has created (indexed by position), its current fill style, the
chronological trace of recorded invocations, and a generic component `other`
standing for all remaining context state (stroke style, line width, pixels
outside the filled rectangle, ...) that the consumed capability surface
never touches. -/
structure CtxState (α : Type) where
  gradients : List Gradient
  fillStyle : Paint
  trace : List Event
  other : α

/-- Replace the element at index `i` of a list by `f` of it; out-of-range
indices leave the list unchanged. -/
def listModify {β : Type} : List β → Nat → (β → β) → List β
  | [], _, _ => []
  | b :: l, 0, f => f b :: l
  | b :: l, n + 1, f => b :: listModify l n f

/-- Mock `ctx.createLinearGradient(x0, y0, x1, y1)`: allocates a fresh
gradient object with no stops, records the invocation, and returns the new
gradient's reference. -/
def CtxState.createLinearGradient {α : Type} (s : CtxState α)
    (x0 y0 x1 y1 : Int) : Nat × CtxState α :=
  (s.gradients.length,
    { s with
      gradients := s.gradients ++ [⟨x0, y0, x1, y1, []⟩]
      trace := s.trace ++ [.createLinearGradient x0 y0 x1 y1 s.gradients.length] })

/-- Mock `gradient.addColorStop(offset, color)`: appends the stop to the
referenced gradient object and records the invocation. -/
def CtxState.addColorStop {α : Type} (s : CtxState α) (gid : Nat)
    (offset : ℚ) (color : String) : CtxState α :=
  { s with
    gradients := listModify s.gradients gid
      (fun g => { g with stops := g.stops ++ [(offset, color)] })
    trace := s.trace ++ [.addColorStop gid offset color] }

/-- Mock `ctx.fillStyle = p`: sets the context's fill style and records the
assignment. -/
def CtxState.setFillStyle {α : Type} (s : CtxState α) (p : Paint) : CtxState α :=
  { s with fillStyle := p, trace := s.trace ++ [.setFillStyle p] }

/-- Mock `ctx.fillRect(x, y, w, h)`: records the invocation. -/
def CtxState.fillRect {α : Type} (s : CtxState α) (x y w h : Int) : CtxState α :=
  { s with trace := s.trace ++ [.fillRect x y w h] }

/-- Shallow embedding of `color_gradient(ctx)` from
`src/app/src/color_legend_gradient.js`, line by line.  The context reference
`ctx` (of an arbitrary reference type `ρ`) is distinguished from the context
state it points to, which is threaded explicitly; the function returns the
reference it received together with the mutated state. -/
def color_gradient {ρ α : Type} (ctx : ρ) (s : CtxState α) : ρ × CtxState α :=
  let (gradient, s) := s.createLinearGradient 0 0 0 180
  let s := s.addColorStop gradient 0 "red"
  let s := s.addColorStop gradient 1 "black"
  let s := s.setFillStyle (Paint.gradient gradient)
  let s := s.fillRect 5 0 15 180
  (ctx, s)

/-- The gradient value that `color_gradient` builds: endpoints (0,0)-(0,180)
with stops (0, "red") then (1, "black"). -/
def legendGradient : Gradient :=
  ⟨0, 0, 0, 180, [((0 : ℚ), "red"), ((1 : ℚ), "black")]⟩

/-- The exact sequence of invocations one call of `color_gradient` records
on a context whose gradient heap currently holds `n` gradients. -/
def callEvents (n : Nat) : List Event :=
  [.createLinearGradient 0 0 0 180 n,
   .addColorStop n 0 "red",
   .addColorStop n 1 "black",
   .setFillStyle (Paint.gradient n),
   .fillRect 5 0 15 180]

theorem listModify_append {β : Type} (l : List β) (b : β) (f : β → β) :
    listModify (l ++ [b]) l.length f = l ++ [f b] := by
  induction l with
  | nil => rfl
  | cons a l ih => simpa [listModify] using ih

theorem color_gradient_state {ρ α : Type} (ctx : ρ) (s : CtxState α) :
    (color_gradient ctx s).2 =
      { gradients := s.gradients ++ [legendGradient]
        fillStyle := Paint.gradient s.gradients.length
        trace := s.trace ++ callEvents s.gradients.length
        other := s.other } := by
  simp only [color_gradient, CtxState.createLinearGradient, CtxState.addColorStop,
    CtxState.setFillStyle, CtxState.fillRect, legendGradient, callEvents,
    List.append_assoc, List.singleton_append, List.cons_append, List.nil_append,
    listModify_append]

/-!
## The drawing context as a fallible capability record

For the error-handling claim the four consumed capabilities are modelled as
an arbitrary implementation that may fail, mirroring the duck-typed context
object: each primitive either returns a result with the successor context
state or raises an exception of an arbitrary type `ε`.
-/

/-- A duck-typed drawing-context implementation over context states `σ`,
gradient references `γ` and exceptions `ε`: the four capabilities consumed
by `color_gradient`, each of which may raise. -/
structure DrawOps (ε σ γ : Type) where
  createLinearGradient : Int → Int → Int → Int → σ → Except ε (γ × σ)
  addColorStop : γ → ℚ → String → σ → Except ε σ
  setFillStyle : γ → σ → Except ε σ
  fillRect : Int → Int → Int → Int → σ → Except ε σ

/-- `color_gradient` over an arbitrary fallible context implementation.
The function body has no handler, so an exception raised by any primitive
aborts the remaining statements and is returned unchanged — which is
exactly what each fall-through `error` branch expresses. -/
def color_gradientF {ε σ γ : Type} (ops : DrawOps ε σ γ) (s : σ) : Except ε σ :=
  match ops.createLinearGradient 0 0 0 180 s with
  | .error e => .error e
  | .ok (gradient, s) =>
    match ops.addColorStop gradient 0 "red" s with
    | .error e => .error e
    | .ok s =>
      match ops.addColorStop gradient 1 "black" s with
      | .error e => .error e
      | .ok s =>
        match ops.setFillStyle gradient s with
        | .error e => .error e
        | .ok s =>
          match ops.fillRect 5 0 15 180 s with
          | .error e => .error e
          | .ok s => .ok s

/-- `e` is the exception of the first primitive that fails when the five
statements of `color_gradient` run in order against `ops` from `s`. -/
def FirstFailure {ε σ γ : Type} (ops : DrawOps ε σ γ) (s : σ) (e : ε) : Prop :=
  ops.createLinearGradient 0 0 0 180 s = .error e ∨
  ∃ g s1, ops.createLinearGradient 0 0 0 180 s = .ok (g, s1) ∧
    (ops.addColorStop g 0 "red" s1 = .error e ∨
     ∃ s2, ops.addColorStop g 0 "red" s1 = .ok s2 ∧
       (ops.addColorStop g 1 "black" s2 = .error e ∨
        ∃ s3, ops.addColorStop g 1 "black" s2 = .ok s3 ∧
          (ops.setFillStyle g s3 = .error e ∨
           ∃ s4, ops.setFillStyle g s3 = .ok s4 ∧
             ops.fillRect 5 0 15 180 s4 = .error e)))

theorem getElem?_append_length {β : Type} (l : List β) (b : β) :
    (l ++ [b])[l.length]? = some b := by
  induction l with
  | nil => rfl
  | cons a l ih =>
    simp only [List.cons_append, List.length_cons, List.getElem?_cons_succ]
    exact ih

/-- Claim C1: for every drawing context, calling the render operation
registers exactly two color stops on the created gradient, in order: first
(0, "red"), then (1, "black"); the gradient never has any other stops. -/
theorem c1_exactly_two_color_stops {ρ α : Type} (ctx : ρ) (s : CtxState α) :
    (color_gradient ctx s).2.gradients =
      s.gradients ++ [⟨0, 0, 0, 180, [((0 : ℚ), "red"), ((1 : ℚ), "black")]⟩] ∧
    ((color_gradient ctx s).2.trace).filter Event.isAddColorStop =
      s.trace.filter Event.isAddColorStop ++
        [Event.addColorStop s.gradients.length 0 "red",
         Event.addColorStop s.gradients.length 1 "black"] := by
  rw [color_gradient_state]
  exact ⟨rfl, by simp [callEvents, Event.isAddColorStop, List.filter_append]⟩

/-- Claim C2: for every drawing context, calling the render operation
invokes fillRect on that context exactly once, with arguments
(5, 0, 15, 180). -/
theorem c2_fillRect_exactly_once {ρ α : Type} (ctx : ρ) (s : CtxState α) :
    ((color_gradient ctx s).2.trace).filter Event.isFillRect =
      s.trace.filter Event.isFillRect ++ [Event.fillRect 5 0 15 180] := by
  rw [color_gradient_state]
  simp [callEvents, Event.isFillRect, List.filter_append]

/-- Claim C3: for every drawing context, calling the render operation
invokes createLinearGradient on that context exactly once, with endpoint
coordinates (0, 0, 0, 180). -/
theorem c3_createLinearGradient_exactly_once {ρ α : Type} (ctx : ρ) (s : CtxState α) :
    ((color_gradient ctx s).2.trace).filter Event.isCreateLinearGradient =
      s.trace.filter Event.isCreateLinearGradient ++
        [Event.createLinearGradient 0 0 0 180 s.gradients.length] := by
  rw [color_gradient_state]
  simp [callEvents, Event.isCreateLinearGradient, List.filter_append]

/-- Claim C4: in every call to the render operation, the context's
fill-style property is assigned the gradient object returned by
createLinearGradient, and this assignment happens before the fillRect
call occurs: no fillRect is recorded before the assignment, and the single
fillRect of the call is recorded after it. -/
theorem c4_assignment_before_fillRect {ρ α : Type} (ctx : ρ) (s : CtxState α) :
    (color_gradient ctx s).2.fillStyle = Paint.gradient s.gradients.length ∧
    ∃ pre post : List Event,
      (color_gradient ctx s).2.trace =
        s.trace ++ pre ++ [Event.setFillStyle (Paint.gradient s.gradients.length)] ++ post ∧
      pre.filter Event.isFillRect = [] ∧
      post.filter Event.isFillRect = [Event.fillRect 5 0 15 180] := by
  rw [color_gradient_state]
  refine ⟨rfl,
    [Event.createLinearGradient 0 0 0 180 s.gradients.length,
     Event.addColorStop s.gradients.length 0 "red",
     Event.addColorStop s.gradients.length 1 "black"],
    [Event.fillRect 5 0 15 180], ?_, rfl, rfl⟩
  simp [callEvents]

/-- Claim C5: for every input context, the render operation's return value
is reference-identical to the context it was given as input. -/
theorem c5_returns_input_context {ρ α : Type} (ctx : ρ) (s : CtxState α) :
    (color_gradient ctx s).1 = ctx := rfl

/-- Claim C6: calling the render operation twice on the same context
produces the same observable behaviour on each call — each call allocates a
fresh gradient carrying exactly the stops (0, "red") and (1, "black"),
records the same invocation sequence (on the fresh gradient reference), and
issues the same single fillRect(5, 0, 15, 180) — with no state accumulated
across calls. -/
theorem c6_second_call_behaves_identically {ρ α : Type} (ctx : ρ) (s : CtxState α) :
    (color_gradient (color_gradient ctx s).1 (color_gradient ctx s).2).2.gradients =
      s.gradients ++ [legendGradient, legendGradient] ∧
    (color_gradient (color_gradient ctx s).1 (color_gradient ctx s).2).2.trace =
      s.trace ++ callEvents s.gradients.length ++ callEvents (s.gradients.length + 1) ∧
    ((color_gradient (color_gradient ctx s).1 (color_gradient ctx s).2).2.trace).filter
        Event.isFillRect =
      s.trace.filter Event.isFillRect ++
        [Event.fillRect 5 0 15 180, Event.fillRect 5 0 15 180] := by
  simp [color_gradient_state, callEvents, Event.isFillRect, List.filter_append]

/-- Claim C7: after the render operation returns, the context's fill style
remains set to the gradient it assigned — the call records exactly one
fill-style assignment and performs no scoped restoration of the fill style
it mutated. -/
theorem c7_no_scoped_restoration {ρ α : Type} (ctx : ρ) (s : CtxState α) :
    (color_gradient ctx s).2.fillStyle = Paint.gradient s.gradients.length ∧
    ((color_gradient ctx s).2.trace).filter Event.isSetFillStyle =
      s.trace.filter Event.isSetFillStyle ++
        [Event.setFillStyle (Paint.gradient s.gradients.length)] := by
  rw [color_gradient_state]
  exact ⟨rfl, by simp [callEvents, Event.isSetFillStyle, List.filter_append]⟩

/-- Claim C8: the render operation performs no validation and has no
failure modes of its own: against any fallible context implementation it
fails exactly when one of the underlying primitives — gradient creation,
either color-stop registration, the fill-style assignment, or fillRect — is
the first to raise, and then with that primitive's exception unchanged. -/
theorem c8_errors_propagate_unchanged {ε σ γ : Type} (ops : DrawOps ε σ γ)
    (s : σ) (e : ε) :
    color_gradientF ops s = Except.error e ↔ FirstFailure ops s e := by
  unfold color_gradientF FirstFailure
  rcases h1 : ops.createLinearGradient 0 0 0 180 s with e1 | ⟨g, s1⟩
  · simp [h1]
  rcases h2 : ops.addColorStop g 0 "red" s1 with e2 | s2
  · simp [h1, h2, and_assoc]
  rcases h3 : ops.addColorStop g 1 "black" s2 with e3 | s3
  · simp [h1, h2, h3, and_assoc]
  rcases h4 : ops.setFillStyle g s3 with e4 | s4
  · simp [h1, h2, h3, h4, and_assoc]
  rcases h5 : ops.fillRect 5 0 15 180 s4 with e5 | s5
  · simp [h1, h2, h3, h4, h5, and_assoc]
  · simp [h1, h2, h3, h4, h5, and_assoc]

/-- Claim C9: in every call to the render operation, both color-stop
registrations on the gradient are recorded before the gradient is assigned
to the context's fill-style property, and the fillRect comes later still,
so the created gradient already carries both stops — and no others — when
it becomes the active paint. -/
theorem c9_stops_before_assignment {ρ α : Type} (ctx : ρ) (s : CtxState α) :
    (∃ pre mid post : List Event,
      (color_gradient ctx s).2.trace =
        s.trace ++ pre ++ [Event.addColorStop s.gradients.length 0 "red"] ++ mid ++
          [Event.addColorStop s.gradients.length 1 "black"] ++ post ∧
      pre.filter Event.isSetFillStyle = [] ∧
      mid.filter Event.isSetFillStyle = [] ∧
      post.filter Event.isSetFillStyle =
        [Event.setFillStyle (Paint.gradient s.gradients.length)] ∧
      post.filter Event.isFillRect = [Event.fillRect 5 0 15 180]) ∧
    ((color_gradient ctx s).2.gradients)[s.gradients.length]? = some legendGradient := by
  rw [color_gradient_state]
  refine ⟨⟨[Event.createLinearGradient 0 0 0 180 s.gradients.length], [],
    [Event.setFillStyle (Paint.gradient s.gradients.length), Event.fillRect 5 0 15 180],
    ?_, rfl, rfl, rfl, rfl⟩, getElem?_append_length _ _⟩
  simp [callEvents]

/-- Claim C10: the render operation touches the context only through
createLinearGradient, the fill-style assignment, and one fillRect call:
the generic remainder of the context state is unchanged, every gradient
that existed before the call is unchanged, and the recorded invocations of
the call are exactly the five of `callEvents`. -/
theorem c10_no_other_effect {ρ α : Type} (ctx : ρ) (s : CtxState α) :
    (color_gradient ctx s).2.other = s.other ∧
    (color_gradient ctx s).2.trace = s.trace ++ callEvents s.gradients.length ∧
    List.take s.gradients.length (color_gradient ctx s).2.gradients = s.gradients := by
  rw [color_gradient_state]
  exact ⟨rfl, rfl, List.take_left s.gradients _⟩

end ColorLegendGradient
